import Mathlib

/-!
# Verification of the live-vehicle tracking core (frontend hook + map reconciliation)

Shallow embedding of `useVehiclesWebSocket` (src/frontend/src/hooks/useApi.ts)
and the vehicle-table / marker reconciliation logic of the `LiveMap` page
(src/frontend/src/pages/Arrivals.tsx).

Modelling conventions:
* JavaScript `Map` objects are modelled as association lists that preserve
  insertion order: `Map.set` updates an existing key in place and appends a
  fresh key at the end, exactly like the JS semantics.
* Numeric payload fields (latitude, longitude, bearing, speed, bounds) are
  only stored and forwarded by the code, never computed with, so they are
  carried as integers; timestamps as naturals.
* WebSocket handles are identified by the order of their creation (`Nat`
  ids); `readyState` follows the four WebSocket constants.  Transport
  events (`open`, `message`, `close`, `error`) are delivered by the
  environment to a named handle; each delivery runs the handler the hook
  installed on that handle.  All handlers close over the same shared refs
  (`wsRef`, `reconnectTimeoutRef`, `pendingBoundsRef`) and React state, so
  a single global state record is mutated by every handler, matching the
  source.
* `setTimeout` timers are modelled as the set of pending `(id, delay)`
  pairs plus the single `reconnectTimeoutRef` slot that the code keeps;
  `clearTimeout` removes a pending timer by id and is a no-op on a timer
  that already fired, as in JS.  `scheduledLog` is a history variable
  recording the delay of every `setTimeout` the code ever performs.
-/

/-- The four WebSocket `readyState` values. -/
inductive ReadyState where
  | CONNECTING
  | OPEN
  | CLOSING
  | CLOSED
deriving DecidableEq, Repr

/-- Wire shape of one vehicle record (useApi.ts `VehiclePosition`). -/
structure VehiclePosition where
  trip_id : String
  route_id : String
  direction_id : Nat
  vehicle_id : String
  timestamp : Nat
  latitude : Int
  longitude : Int
  bearing : Option Int
  speed : Option Int
deriving DecidableEq, Repr

/-- A geographic rectangle (useApi.ts `MapBounds`). -/
structure MapBounds where
  north : Int
  south : Int
  east : Int
  west : Int
deriving DecidableEq, Repr

/-- Result of `JSON.parse` + the `type` discriminator on an inbound frame
(useApi.ts `WSMessage`; `malformed` is a frame on which `JSON.parse` throws,
`unknown` is a parsed frame whose `type` matches no case of the switch). -/
inductive Frame where
  | malformed
  | vehicleUpdates (vehicles : List VehiclePosition)
  | connectedMsg (vehicle_count : Nat)
  | boundsSet (vehicle_count : Nat)
  | pong
  | unknown
deriving DecidableEq, Repr

/-- The vehicle table of the `LiveMap` page: a JS `Map` from `trip_id` to
the full vehicle record, modelled as an insertion-ordered association
list. -/
abbrev VehicleTable : Type := List (String × VehiclePosition)

/-- JS `Map.set`: replace the value at an existing key in place, else
append the new key at the end. -/
def mapSet (m : VehicleTable) (k : String) (v : VehiclePosition) : VehicleTable :=
  if m.any (fun p => p.1 = k) then
    m.map (fun p => if p.1 = k then (k, v) else p)
  else
    m ++ [(k, v)]

/-- JS `Map.get` / `Map.has`: first (and only) binding of a key. -/
def tlookup : VehicleTable → String → Option VehiclePosition
  | [], _ => none
  | (k, v) :: rest, t => if k = t then some v else tlookup rest t

/-- Arrivals.tsx lines 222-230, `handleVehicleUpdates`: fold a batch into
the table with `next.set(v.trip_id, v)` for each record, in batch order. -/
def handleVehicleUpdates (table : VehicleTable) (updates : List VehiclePosition) : VehicleTable :=
  updates.foldl (fun t v => mapSet t v.trip_id v) table

/-- Applying a whole sequence of batches starting from the empty table. -/
def applyAll (batches : List (List VehiclePosition)) : VehicleTable :=
  batches.foldl handleVehicleUpdates []

/-- The most recently applied record carrying a given `trip_id` in a flat
list of records (later entries win). -/
def lastEntry (t : String) : List VehiclePosition → Option VehiclePosition
  | [] => none
  | v :: l =>
    match lastEntry t l with
    | some w => some w
    | none => if v.trip_id = t then some v else none

/-- Arrivals.tsx lines 340-348: the marker-reconciliation effect removes
exactly the rendered trip ids that are no longer keys of the vehicle
table (`!currentTripIds.has(tripId)`). -/
def markersToRemove (rendered : List String) (table : VehicleTable) : List String :=
  rendered.filter (fun id => (tlookup table id).isNone)

/- ## Lemmas about the vehicle table -/

theorem mapSet_cons_ne (p : String × VehiclePosition) (rest : VehicleTable) (k : String)
    (v : VehiclePosition) (h : ¬ p.1 = k) :
    mapSet (p :: rest) k v = p :: mapSet rest k v := by
  by_cases hr : rest.any (fun q => q.1 = k) = true
  · simp [mapSet, h, hr]
  · simp [mapSet, h, hr]

theorem mapSet_cons_eq (p : String × VehiclePosition) (rest : VehicleTable) (k : String)
    (v : VehiclePosition) (h : p.1 = k) :
    mapSet (p :: rest) k v = (k, v) :: rest.map (fun q => if q.1 = k then (k, v) else q) := by
  simp [mapSet, h]

theorem tlookup_map_ne (l : VehicleTable) (k : String) (v : VehiclePosition) (t : String)
    (h : ¬ t = k) :
    tlookup (l.map (fun q => if q.1 = k then (k, v) else q)) t = tlookup l t := by
  induction l with
  | nil => rfl
  | cons q rest ih =>
    have hmap : (q :: rest).map (fun q => if q.1 = k then (k, v) else q) =
        (if q.1 = k then (k, v) else q) :: rest.map (fun q => if q.1 = k then (k, v) else q) :=
      List.map_cons _ _ _
    by_cases hq : q.1 = k
    · have hkt : ¬ k = t := fun hh => h hh.symm
      have hqt : ¬ q.1 = t := fun hh => h (by rw [← hh, hq])
      rw [hmap, if_pos hq]
      simp only [tlookup, if_neg hkt, if_neg hqt, ih]
    · rw [hmap, if_neg hq]
      by_cases hqt : q.1 = t
      · simp [tlookup, hqt]
      · simp [tlookup, hqt, ih]

theorem tlookup_mapSet (m : VehicleTable) (k : String) (v : VehiclePosition) (t : String) :
    tlookup (mapSet m k v) t = if t = k then some v else tlookup m t := by
  induction m with
  | nil =>
    by_cases htk : t = k
    · simp [mapSet, tlookup, htk]
    · have hkt : ¬ k = t := fun hh => htk hh.symm
      simp [mapSet, tlookup, htk, hkt]
  | cons p rest ih =>
    by_cases hpk : p.1 = k
    · rw [mapSet_cons_eq p rest k v hpk]
      by_cases htk : t = k
      · simp [tlookup, htk]
      · have hkt : ¬ k = t := fun hh => htk hh.symm
        have hpt : ¬ p.1 = t := fun hh => htk (by rw [← hh, hpk])
        simp only [tlookup, if_neg hkt, if_neg hpt, if_neg htk,
          tlookup_map_ne rest k v t htk]
    · rw [mapSet_cons_ne p rest k v hpk]
      by_cases hpt : p.1 = t
      · have htk : ¬ t = k := fun hh => hpk (by rw [hpt, hh])
        simp [tlookup, hpt, htk]
      · simp [tlookup, hpt, ih]

theorem tlookup_fold_batch (l : List VehiclePosition) (m : VehicleTable) (t : String) :
    tlookup (l.foldl (fun a v => mapSet a v.trip_id v) m) t =
      match lastEntry t l with
      | some w => some w
      | none => tlookup m t := by
  induction l generalizing m with
  | nil => simp [lastEntry]
  | cons v l ih =>
    simp only [List.foldl_cons, lastEntry]
    rw [ih (mapSet m v.trip_id v)]
    cases hle : lastEntry t l with
    | some w => simp
    | none =>
      simp only [tlookup_mapSet]
      by_cases hvt : v.trip_id = t
      · simp [hvt]
      · have htv : ¬ t = v.trip_id := fun hh => hvt hh.symm
        simp [hvt, htv]

theorem foldl_handleVehicleUpdates (bs : List (List VehiclePosition)) (m : VehicleTable) :
    bs.foldl handleVehicleUpdates m =
      bs.flatten.foldl (fun a v => mapSet a v.trip_id v) m := by
  induction bs generalizing m with
  | nil => rfl
  | cons b bs ih =>
    simp only [List.foldl_cons, List.flatten_cons, List.foldl_append]
    exact ih (handleVehicleUpdates m b)

/-- C3 core fact: after any batch sequence from the empty table, looking up
a trip id yields exactly the most recently applied record for it. -/
theorem applyAll_lookup (batches : List (List VehiclePosition)) (t : String) :
    tlookup (applyAll batches) t = lastEntry t batches.flatten := by
  rw [applyAll, foldl_handleVehicleUpdates, tlookup_fold_batch]
  cases lastEntry t batches.flatten <;> simp [tlookup]

/- ## The `useVehiclesWebSocket` hook as an event-step state machine -/

/-- The full mutable state owned by one mounted `useVehiclesWebSocket` hook:
the three refs (`wsRef`, `reconnectTimeoutRef`, `pendingBoundsRef`), the four
React state cells, plus the environment bookkeeping (created handles and
their `readyState`, pending timers, sent frames, fresh-id counters) and the
`scheduledLog` history of `setTimeout` delays. -/
structure WSState where
  wsRef : Option Nat
  handles : List (Nat × ReadyState)
  timers : List (Nat × Nat)
  timerRef : Option Nat
  nextTimer : Nat
  pendingBounds : Option MapBounds
  connected : Bool
  errorMsg : Option String
  vehicleCount : Nat
  lastUpdateCount : Nat
  table : VehicleTable
  sent : List (Nat × MapBounds)
  nextId : Nat
  scheduledLog : List Nat
deriving DecidableEq, Repr

/-- readyState of a handle id. -/
def hlookup : List (Nat × ReadyState) → Nat → Option ReadyState
  | [], _ => none
  | (k, st) :: rest, h => if k = h then some st else hlookup rest h

/-- Set the readyState of a handle id. -/
def hset (l : List (Nat × ReadyState)) (h : Nat) (st : ReadyState) : List (Nat × ReadyState) :=
  l.map (fun p => if p.1 = h then (h, st) else p)

/-- `wsRef.current?.readyState === WebSocket.OPEN`. -/
def wsOpen (s : WSState) : Bool :=
  match s.wsRef with
  | none => false
  | some h =>
    match hlookup s.handles h with
    | some ReadyState.OPEN => true
    | _ => false

/-- `if (reconnectTimeoutRef.current) clearTimeout(reconnectTimeoutRef.current)`:
cancel the timer the ref points at, if it is still pending; the ref itself
keeps its (now stale) id, as in the source. -/
def clearTimerRef (s : WSState) : WSState :=
  match s.timerRef with
  | none => s
  | some t => { s with timers := s.timers.filter (fun p => ¬ p.1 = t) }

/-- useApi.ts lines 118-127, `sendBounds`: send `subscribe_bounds` only if
the current handle's readyState is OPEN. -/
def sendBounds (s : WSState) (bounds : MapBounds) : WSState :=
  match s.wsRef with
  | none => s
  | some h =>
    match hlookup s.handles h with
    | some ReadyState.OPEN => { s with sent := s.sent ++ [(h, bounds)] }
    | _ => s

/-- useApi.ts lines 129-141, `connect`: return early if the current handle
is OPEN; otherwise clear the ref'd reconnect timer and create a fresh
WebSocket handle (readyState CONNECTING), storing it in `wsRef`. -/
def connect (s : WSState) : WSState :=
  if wsOpen s then s
  else
    let s1 := clearTimerRef s
    { s1 with
        handles := s1.handles ++ [(s1.nextId, ReadyState.CONNECTING)],
        wsRef := some s1.nextId,
        nextId := s1.nextId + 1 }

/-- useApi.ts lines 143-153, `ws.onopen`: set connected/clear error, then
flush a pending bounds subscription through `sendBounds` and clear the
pending slot. -/
def onopen (s : WSState) : WSState :=
  let s1 := { s with connected := true, errorMsg := none }
  match s1.pendingBounds with
  | some b => { (sendBounds s1 b) with pendingBounds := none }
  | none => s1

/-- useApi.ts lines 155-183, `ws.onmessage`: a malformed frame is caught by
the try/catch and dropped; `vehicle_updates` advances `lastUpdate`, sets
`vehicleCount` to the batch length and hands the batch to
`handleVehicleUpdates`; `connected` and `bounds_set` overwrite
`vehicleCount`; `pong` and unknown types do nothing. -/
def onmessage (s : WSState) (f : Frame) : WSState :=
  match f with
  | Frame.malformed => s
  | Frame.vehicleUpdates vs =>
    { s with
        lastUpdateCount := s.lastUpdateCount + 1,
        vehicleCount := vs.length,
        table := handleVehicleUpdates s.table vs }
  | Frame.connectedMsg c => { s with vehicleCount := c }
  | Frame.boundsSet c => { s with vehicleCount := c }
  | Frame.pong => s
  | Frame.unknown => s

/-- useApi.ts lines 185-187, `ws.onerror`. -/
def onerror (s : WSState) : WSState :=
  { s with errorMsg := some "WebSocket connection error" }

/-- useApi.ts lines 189-199, `ws.onclose`: clear `connected`, null the
shared `wsRef` (unconditionally, even if it already points at a newer
handle), and schedule exactly one reconnect timer with the fixed 3000 ms
delay, storing its id in `reconnectTimeoutRef`. -/
def onclose (s : WSState) : WSState :=
  let s1 := { s with connected := false, wsRef := none }
  { s1 with
      timers := s1.timers ++ [(s1.nextTimer, 3000)],
      timerRef := some s1.nextTimer,
      nextTimer := s1.nextTimer + 1,
      scheduledLog := s1.scheduledLog ++ [3000] }

/-- useApi.ts lines 202-209, `subscribeToBounds`: send immediately when the
current handle is OPEN, else overwrite the pending slot. -/
def subscribeToBounds (s : WSState) (bounds : MapBounds) : WSState :=
  if wsOpen s then sendBounds s bounds
  else { s with pendingBounds := some bounds }

/-- useApi.ts lines 216-224, the effect cleanup: clear the ref'd reconnect
timer, then `close()` the current handle if present (readyState moves to
CLOSING; the transport close event arrives later) and null `wsRef`. -/
def teardown (s : WSState) : WSState :=
  let s1 := clearTimerRef s
  match s1.wsRef with
  | none => s1
  | some h =>
    let s2 :=
      match hlookup s1.handles h with
      | some ReadyState.CONNECTING => { s1 with handles := hset s1.handles h ReadyState.CLOSING }
      | some ReadyState.OPEN => { s1 with handles := hset s1.handles h ReadyState.CLOSING }
      | _ => s1
    { s2 with wsRef := none }

/-- Events driving the hook: the two API entry points (`connect` via the
mount effect, `subscribeToBounds`), the effect cleanup, the transport
events delivered to a named handle, and timer firings. -/
inductive Ev where
  | connectCall
  | subscribe (bounds : MapBounds)
  | teardownEv
  | openEvt (h : Nat)
  | msgEvt (h : Nat) (f : Frame)
  | closeEvt (h : Nat)
  | errorEvt (h : Nat)
  | timerFire (t : Nat)
deriving DecidableEq, Repr

/-- One event step.  Transport events are only deliverable in the matching
readyState (a socket opens once from CONNECTING, delivers messages while
OPEN, and fires close exactly once); the environment first moves the
handle's readyState, then runs the handler the hook installed on it. -/
def step (s : WSState) : Ev → WSState
  | Ev.connectCall => connect s
  | Ev.subscribe b => subscribeToBounds s b
  | Ev.teardownEv => teardown s
  | Ev.openEvt h =>
    match hlookup s.handles h with
    | some ReadyState.CONNECTING => onopen { s with handles := hset s.handles h ReadyState.OPEN }
    | _ => s
  | Ev.msgEvt h f =>
    match hlookup s.handles h with
    | some ReadyState.OPEN => onmessage s f
    | _ => s
  | Ev.closeEvt h =>
    match hlookup s.handles h with
    | some ReadyState.CONNECTING => onclose { s with handles := hset s.handles h ReadyState.CLOSED }
    | some ReadyState.OPEN => onclose { s with handles := hset s.handles h ReadyState.CLOSED }
    | some ReadyState.CLOSING => onclose { s with handles := hset s.handles h ReadyState.CLOSED }
    | _ => s
  | Ev.errorEvt h =>
    match hlookup s.handles h with
    | some _ => onerror s
    | none => s
  | Ev.timerFire t =>
    if s.timers.any (fun p => p.1 = t) then
      connect { s with timers := s.timers.filter (fun p => ¬ p.1 = t) }
    else s

/-- State of a freshly mounted hook, before the mount effect runs. -/
def initState : WSState :=
  { wsRef := none, handles := [], timers := [], timerRef := none, nextTimer := 0,
    pendingBounds := none, connected := false, errorMsg := none, vehicleCount := 0,
    lastUpdateCount := 0, table := [], sent := [], nextId := 0, scheduledLog := [] }

/-- Run a list of events from the initial state. -/
def run (evs : List Ev) : WSState :=
  evs.foldl step initState

/-- One immediate connection failure followed by the reconnect-timer firing:
the current handle's close event arrives, then the freshly scheduled timer
fires and re-invokes `connect`. -/
def failStep (s : WSState) : WSState :=
  let s1 := step s (Ev.closeEvt (s.wsRef.getD 0))
  step s1 (Ev.timerFire (s1.timerRef.getD 0))

/-- The reconnect loop after `n` consecutive immediate connection
failures, starting from the mount effect's `connect()`. -/
def failureRun : Nat → WSState
  | 0 => step initState Ev.connectCall
  | n + 1 => failStep (failureRun n)

/-- Handles 0..n-1, all closed. -/
def closedHandles (n : Nat) : List (Nat × ReadyState) :=
  (List.range n).map (fun i => (i, ReadyState.CLOSED))

theorem closedHandles_key_ne (n : Nat) :
    ∀ p ∈ closedHandles n, ¬ p.1 = n := by
  intro p hp
  simp only [closedHandles, List.mem_map, List.mem_range] at hp
  obtain ⟨i, hi, rfl⟩ := hp
  exact fun h => absurd h (Nat.ne_of_lt hi)

theorem hlookup_append_not_mem (l : List (Nat × ReadyState)) (n : Nat) (st : ReadyState)
    (h : ∀ p ∈ l, ¬ p.1 = n) : hlookup (l ++ [(n, st)]) n = some st := by
  induction l with
  | nil => simp [hlookup]
  | cons p rest ih =>
    have hp : ¬ p.1 = n := h p (List.mem_cons_self p rest)
    simp only [List.cons_append, hlookup, if_neg hp]
    exact ih (fun q hq => h q (List.mem_cons_of_mem p hq))

theorem hset_not_mem (l : List (Nat × ReadyState)) (n : Nat) (st' : ReadyState) :
    (∀ p ∈ l, ¬ p.1 = n) → hset l n st' = l := by
  induction l with
  | nil => intro _; rfl
  | cons p rest ih =>
    intro h
    have hp : ¬ p.1 = n := h p (List.mem_cons_self p rest)
    simp only [hset, List.map_cons, if_neg hp]
    rw [show rest.map (fun p => if p.1 = n then (n, st') else p) = hset rest n st' from rfl,
      ih (fun q hq => h q (List.mem_cons_of_mem p hq))]

theorem hset_append_not_mem (l : List (Nat × ReadyState)) (n : Nat) (st st' : ReadyState)
    (h : ∀ p ∈ l, ¬ p.1 = n) :
    hset (l ++ [(n, st)]) n st' = l ++ [(n, st')] := by
  unfold hset
  rw [List.map_append]
  rw [show (l.map (fun p => if p.1 = n then (n, st') else p)) = hset l n st' from rfl,
    hset_not_mem l n st' h]
  simp

theorem closedHandles_succ (n : Nat) :
    closedHandles (n + 1) = closedHandles n ++ [(n, ReadyState.CLOSED)] := by
  simp [closedHandles, List.range_succ]

/-- Closed form of the state reached after `n` immediate connection
failures. -/
def mkFail (n : Nat) : WSState :=
  { wsRef := some n,
    handles := closedHandles n ++ [(n, ReadyState.CONNECTING)],
    timers := [],
    timerRef := if n = 0 then none else some (n - 1),
    nextTimer := n,
    pendingBounds := none, connected := false, errorMsg := none,
    vehicleCount := 0, lastUpdateCount := 0, table := [], sent := [],
    nextId := n + 1,
    scheduledLog := List.replicate n 3000 }

/-- Intermediate state in the middle of a failure cycle: after the close
event of attempt `n`, before its reconnect timer fires. -/
def mkClosed (n : Nat) : WSState :=
  { wsRef := none,
    handles := closedHandles (n + 1),
    timers := [(n, 3000)],
    timerRef := some n,
    nextTimer := n + 1,
    pendingBounds := none, connected := false, errorMsg := none,
    vehicleCount := 0, lastUpdateCount := 0, table := [], sent := [],
    nextId := n + 1,
    scheduledLog := List.replicate (n + 1) 3000 }

theorem failureRun_eq (n : Nat) : failureRun n = mkFail n := by
  induction n with
  | zero => decide
  | succ n ih =>
    show failStep (failureRun n) = mkFail (n + 1)
    rw [ih]
    have hkeys := closedHandles_key_ne n
    have hl : hlookup (mkFail n).handles n = some ReadyState.CONNECTING :=
      hlookup_append_not_mem _ n _ hkeys
    have hs : hset (mkFail n).handles n ReadyState.CLOSED
        = closedHandles (n + 1) := by
      rw [show (mkFail n).handles = closedHandles n ++ [(n, ReadyState.CONNECTING)] from rfl,
        hset_append_not_mem _ n _ _ hkeys, closedHandles_succ]
    unfold failStep
    rw [show (mkFail n).wsRef.getD 0 = n from rfl]
    have h1 : step (mkFail n) (Ev.closeEvt n) = mkClosed n := by
      simp only [step, hl, onclose, hs]
      simp [mkFail, mkClosed, List.replicate_succ']
    rw [h1]
    show step (mkClosed n) (Ev.timerFire ((mkClosed n).timerRef.getD 0)) = mkFail (n + 1)
    rw [show (mkClosed n).timerRef.getD 0 = n from rfl]
    have h2 : step (mkClosed n) (Ev.timerFire n) = mkFail (n + 1) := by
      simp only [step]
      rw [if_pos (by simp [mkClosed])]
      simp [connect, wsOpen, clearTimerRef, mkClosed, mkFail]
    exact h2

/- ## JavaScript-level model of the `vehicle_updates` case on a frame whose
`vehicles` field is not a well-formed array (for the non-atomicity analysis
of `ws.onmessage`)

A frame can parse as JSON with `type: 'vehicle_updates'` while its
`vehicles` field holds any JSON value.  The handler then runs

  setLastUpdate(new Date());
  setVehicleCount(message.vehicles.length);
  onVehicleUpdatesRef.current?.(message.vehicles);

under JS semantics: reading `.length` of `undefined`/`null` throws a
TypeError (caught by the surrounding try/catch, after the `setLastUpdate`
update was already enqueued and therefore still applies); a string has a
numeric `.length` and is iterable, so `for (const v of updates)` iterates
its characters, each of which has `trip_id === undefined`, inserting a
junk entry under the `undefined` key.  Arrays behave normally.  (Numeric,
boolean and object payloads make the later `for...of` throw inside
React's state-updater dispatch and are outside this model.) -/

/-- The JSON value found in the `vehicles` field of a parsed
`vehicle_updates` frame. -/
inductive VField where
  | absent
  | vnull
  | vstr (s : String)
  | varr (vs : List VehiclePosition)
deriving DecidableEq, Repr

/-- A table entry as JS stores it: a real record keyed by its `trip_id`,
or a junk character keyed by the `undefined` key (`none`). -/
inductive TableVal where
  | pos (v : VehiclePosition)
  | chr (c : Char)
deriving DecidableEq, Repr

/-- Hook + page state touched by the `vehicle_updates` case: the number of
`setLastUpdate` calls, the `vehicleCount` cell, and the vehicle table with
possibly-`undefined` keys. -/
structure VUState where
  lastUpdateCount : Nat
  vehicleCount : Option Nat
  table : List (Option String × TableVal)
deriving DecidableEq, Repr

/-- JS `Map.set` over the mixed-key table. -/
def mixedSet (m : List (Option String × TableVal)) (k : Option String) (v : TableVal) :
    List (Option String × TableVal) :=
  if m.any (fun p => p.1 = k) then
    m.map (fun p => if p.1 = k then (k, v) else p)
  else
    m ++ [(k, v)]

/-- The `vehicle_updates` case of `ws.onmessage` (useApi.ts lines 160-163)
plus the `handleVehicleUpdates` callback it invokes, evaluated under JS
semantics on an arbitrary `vehicles` field.  Returns the new state and
whether a TypeError was thrown and caught by the handler's try/catch. -/
def processVehicleUpdatesFrame (st : VUState) (vehicles : VField) : VUState × Bool :=
  let st1 : VUState := { st with lastUpdateCount := st.lastUpdateCount + 1 }
  match vehicles with
  | VField.absent => (st1, true)
  | VField.vnull => (st1, true)
  | VField.varr vs =>
    let st2 : VUState := { st1 with vehicleCount := some vs.length }
    ({ st2 with
        table := vs.foldl (fun t v => mixedSet t (some v.trip_id) (TableVal.pos v)) st2.table },
      false)
  | VField.vstr s =>
    let st2 : VUState := { st1 with vehicleCount := some s.length }
    ({ st2 with
        table := s.toList.foldl (fun t c => mixedSet t none (TableVal.chr c)) st2.table },
      false)

/-- Initial state for the non-atomicity analysis. -/
def vuInit : VUState := { lastUpdateCount := 0, vehicleCount := some 0, table := [] }

/- ## Helper facts about `clearTimerRef` -/

theorem clearTimerRef_nextId (s : WSState) : (clearTimerRef s).nextId = s.nextId := by
  unfold clearTimerRef
  cases s.timerRef <;> rfl

theorem clearTimerRef_handles (s : WSState) : (clearTimerRef s).handles = s.handles := by
  unfold clearTimerRef
  cases s.timerRef <;> rfl

/- ## Concrete sample data -/

/-- A concrete vehicle record with trip id "A". -/
def vehA : VehiclePosition :=
  { trip_id := "A", route_id := "39A", direction_id := 0, vehicle_id := "VA",
    timestamp := 100, latitude := 53, longitude := -6, bearing := none, speed := none }

/-- A concrete vehicle record with trip id "B". -/
def vehB : VehiclePosition :=
  { trip_id := "B", route_id := "16", direction_id := 1, vehicle_id := "VB",
    timestamp := 200, latitude := 53, longitude := -6, bearing := some 90, speed := some 30 }

/-- A concrete viewport. -/
def boundsA : MapBounds := { north := 54, south := 53, east := -6, west := -7 }

/-- Another concrete viewport. -/
def boundsB : MapBounds := { north := 55, south := 52, east := -5, west := -8 }

/- ## Claims -/

/-- C1: the claim states that after applying a batch containing trip "A"
and then a later batch without "A" (past any staleness horizon), "A" is in
the `toRemove` set computed against the current vehicle table,
equivalently that "A" is no longer a key of the table.  Evaluating the
source at exactly that input shows the opposite: `handleVehicleUpdates`
never evicts, so "A" is still mapped to its old record, and the marker
reconciliation (which removes only rendered ids missing from the table)
removes nothing.  There is no staleness policy anywhere in the code, so no
later batch can ever put "A" into `toRemove`. -/
theorem c1_no_eviction_eval :
    tlookup (applyAll [[vehA], [vehB]]) "A" = some vehA
    ∧ markersToRemove ["A", "B"] (applyAll [[vehA], [vehB]]) = [] := by
  decide

/-- C2: `requestBounds` while the connection is not open overwrites the
single pending slot (last write wins), and on connection open exactly one
`subscribe_bounds` frame is sent, carrying the last-requested bounds,
after which the pending slot is cleared. -/
theorem c2_pending_last_write_wins_flush :
    ∀ b1 b2 : MapBounds,
      (∀ s : WSState, wsOpen s = false →
        (step s (Ev.subscribe b2)).pendingBounds = some b2
        ∧ (step s (Ev.subscribe b2)).sent = s.sent)
      ∧ (run [Ev.connectCall, Ev.subscribe b1, Ev.subscribe b2]).pendingBounds = some b2
      ∧ (run [Ev.connectCall, Ev.subscribe b1, Ev.subscribe b2]).sent = []
      ∧ (run [Ev.connectCall, Ev.subscribe b1, Ev.subscribe b2, Ev.openEvt 0]).sent = [(0, b2)]
      ∧ (run [Ev.connectCall, Ev.subscribe b1, Ev.subscribe b2, Ev.openEvt 0]).pendingBounds
          = none := by
  intro b1 b2
  refine ⟨fun s h => ?_, rfl, rfl, rfl, rfl⟩
  simp [step, subscribeToBounds, h]

/-- C2 witness at concrete bounds and the concrete disconnected initial
state. -/
theorem c2_witness :
    (step initState (Ev.subscribe boundsB)).pendingBounds = some boundsB
    ∧ (run [Ev.connectCall, Ev.subscribe boundsA, Ev.subscribe boundsB, Ev.openEvt 0]).sent
        = [(0, boundsB)] :=
  ⟨((c2_pending_last_write_wins_flush boundsA boundsB).1 initState (by decide)).1,
    (c2_pending_last_write_wins_flush boundsA boundsB).2.2.2.1⟩

/-- C3: for every sequence of applied batches starting from the empty
table, each trip id is mapped to exactly the full record of the most
recently applied batch entry for it (and to nothing if it never occurred):
the new record fully replaces the old one, with no field-by-field
merging. -/
theorem c3_last_write_wins_table :
    ∀ (batches : List (List VehiclePosition)) (t : String),
      tlookup (applyAll batches) t = lastEntry t batches.flatten :=
  fun batches t => applyAll_lookup batches t

/-- C4: every deliverable close event schedules exactly one reconnect
timer, always with the fixed 3000 ms delay (an undeliverable close event
schedules nothing); and after `n` consecutive immediate connection
failures, exactly `n` reconnect timers were scheduled, all with the same
fixed delay, each fired and re-invoked `connect` (so `n + 1` handles were
opened in total), and the loop is still running with a live connection
attempt in flight — no backoff growth, no retry cap, never gives up. -/
theorem c4_fixed_delay_reconnect :
    (∀ (s : WSState) (h : Nat),
      (step s (Ev.closeEvt h)).scheduledLog = s.scheduledLog
      ∨ (step s (Ev.closeEvt h)).scheduledLog = s.scheduledLog ++ [3000])
    ∧ ∀ n : Nat,
        (failureRun n).scheduledLog = List.replicate n 3000
        ∧ (failureRun n).nextId = n + 1
        ∧ (failureRun n).wsRef = some n
        ∧ (failureRun n).timers = [] := by
  constructor
  · intro s h
    simp only [step]
    split <;> first
      | (left; rfl)
      | (right; simp [onclose])
  · intro n
    rw [failureRun_eq n]
    exact ⟨rfl, rfl, rfl, rfl⟩

/-- C5 counterexample: while the only handle is still CONNECTING,
`connect()` is not a no-op — it opens a second connection handle and
replaces `wsRef`, contradicting the claim that `connect()` is a no-op in
the Connecting state. -/
theorem c5_counterexample :
    hlookup (run [Ev.connectCall]).handles 0 = some ReadyState.CONNECTING
    ∧ ¬ (step (run [Ev.connectCall]) Ev.connectCall = run [Ev.connectCall])
    ∧ (step (run [Ev.connectCall]) Ev.connectCall).nextId = 2
    ∧ (step (run [Ev.connectCall]) Ev.connectCall).wsRef = some 1 := by
  decide

/-- C5 amended: `connect()` is a no-op exactly when the current handle's
readyState is OPEN (Connected); in every other state — including
Connecting — it opens a fresh connection handle and stores it in
`wsRef`. -/
theorem c5_connect_noop_only_when_open :
    ∀ s : WSState,
      (wsOpen s = true → step s Ev.connectCall = s)
      ∧ (wsOpen s = false →
          (step s Ev.connectCall).wsRef = some s.nextId
          ∧ (step s Ev.connectCall).nextId = s.nextId + 1
          ∧ (step s Ev.connectCall).handles
              = s.handles ++ [(s.nextId, ReadyState.CONNECTING)]) := by
  intro s
  constructor
  · intro h
    simp [step, connect, h]
  · intro h
    simp [step, connect, h, clearTimerRef_nextId, clearTimerRef_handles]

/-- C5 witness: the no-op branch at a concrete open state, and the
fresh-handle branch at the concrete initial state. -/
theorem c5_witness :
    step (run [Ev.connectCall, Ev.openEvt 0]) Ev.connectCall = run [Ev.connectCall, Ev.openEvt 0]
    ∧ (step initState Ev.connectCall).wsRef = some initState.nextId :=
  ⟨(c5_connect_noop_only_when_open (run [Ev.connectCall, Ev.openEvt 0])).1 (by decide),
    ((c5_connect_noop_only_when_open initState).2 (by decide)).1⟩

/-- C6: the claim states teardown is idempotent AND final (no further
reconnect ever).  Evaluating the code at the failing input: teardown while
the socket is open does cancel pending timers and is idempotent, but the
closed socket's still-attached `onclose` handler then fires, schedules a
fresh 3000 ms reconnect timer after teardown completed, and when that
timer fires a brand-new connection handle is opened — a reconnect after
teardown, contradicting finality. -/
theorem c6_teardown_not_final_eval :
    (run [Ev.connectCall, Ev.openEvt 0, Ev.teardownEv]).timers = []
    ∧ run [Ev.connectCall, Ev.openEvt 0, Ev.teardownEv, Ev.teardownEv]
        = run [Ev.connectCall, Ev.openEvt 0, Ev.teardownEv]
    ∧ (run [Ev.connectCall, Ev.openEvt 0, Ev.teardownEv, Ev.closeEvt 0]).scheduledLog = [3000]
    ∧ (run [Ev.connectCall, Ev.openEvt 0, Ev.teardownEv, Ev.closeEvt 0]).timers = [(0, 3000)]
    ∧ (run [Ev.connectCall, Ev.openEvt 0, Ev.teardownEv, Ev.closeEvt 0, Ev.timerFire 0]).wsRef
        = some 1
    ∧ (run [Ev.connectCall, Ev.openEvt 0, Ev.teardownEv, Ev.closeEvt 0, Ev.timerFire 0]).nextId
        = 2 := by
  decide

/-- C7: the claim states callbacks of a superseded handle never mutate
state.  Evaluating the code: after `connect()` is called twice (the second
call supersedes the still-CONNECTING first handle), the stale first
handle's close event nulls the shared `wsRef` — discarding the live second
handle — and schedules a reconnect; its late open event flips `connected`
to true even though the current handle is not open.  Stale callbacks are
fully effective. -/
theorem c7_stale_handle_mutates_eval :
    (run [Ev.connectCall, Ev.connectCall]).wsRef = some 1
    ∧ (run [Ev.connectCall, Ev.connectCall, Ev.closeEvt 0]).wsRef = none
    ∧ (run [Ev.connectCall, Ev.connectCall, Ev.closeEvt 0]).scheduledLog = [3000]
    ∧ (run [Ev.connectCall, Ev.connectCall, Ev.openEvt 0]).connected = true
    ∧ hlookup (run [Ev.connectCall, Ev.connectCall, Ev.openEvt 0]).handles 1
        = some ReadyState.CONNECTING := by
  decide

/-- C8: a malformed inbound frame is dropped at the codec boundary with no
state change whatsoever, no throw and no teardown; a corrupt frame between
two valid `vehicle_updates` frames leaves both valid batches applied, the
connection open, and no reconnect scheduled. -/
theorem c8_malformed_frame_dropped :
    (∀ (s : WSState) (h : Nat), step s (Ev.msgEvt h Frame.malformed) = s)
    ∧ ∀ v1 v2 : VehiclePosition,
        (run [Ev.connectCall, Ev.openEvt 0, Ev.msgEvt 0 (Frame.vehicleUpdates [v1]),
          Ev.msgEvt 0 Frame.malformed, Ev.msgEvt 0 (Frame.vehicleUpdates [v2])]).table
          = handleVehicleUpdates (handleVehicleUpdates [] [v1]) [v2]
        ∧ wsOpen (run [Ev.connectCall, Ev.openEvt 0, Ev.msgEvt 0 (Frame.vehicleUpdates [v1]),
            Ev.msgEvt 0 Frame.malformed, Ev.msgEvt 0 (Frame.vehicleUpdates [v2])]) = true
        ∧ (run [Ev.connectCall, Ev.openEvt 0, Ev.msgEvt 0 (Frame.vehicleUpdates [v1]),
            Ev.msgEvt 0 Frame.malformed, Ev.msgEvt 0 (Frame.vehicleUpdates [v2])]).scheduledLog
            = [] := by
  constructor
  · intro s h
    simp only [step]
    split <;> rfl
  · intro v1 v2
    exact ⟨rfl, rfl, rfl⟩

/-- C9 counterexample: after two singleton batches with distinct trip ids,
the hook's exposed `vehicleCount` is 1 (the length of the latest batch)
while the vehicle table holds 2 distinct trip ids — the count set on each
`vehicle_updates` frame is not the table size. -/
theorem c9_counterexample :
    (run [Ev.connectCall, Ev.openEvt 0, Ev.msgEvt 0 (Frame.vehicleUpdates [vehA]),
      Ev.msgEvt 0 (Frame.vehicleUpdates [vehB])]).vehicleCount = 1
    ∧ (run [Ev.connectCall, Ev.openEvt 0, Ev.msgEvt 0 (Frame.vehicleUpdates [vehA]),
        Ev.msgEvt 0 (Frame.vehicleUpdates [vehB])]).table.length = 2
    ∧ ¬ ((run [Ev.connectCall, Ev.openEvt 0, Ev.msgEvt 0 (Frame.vehicleUpdates [vehA]),
        Ev.msgEvt 0 (Frame.vehicleUpdates [vehB])]).vehicleCount
          = (run [Ev.connectCall, Ev.openEvt 0, Ev.msgEvt 0 (Frame.vehicleUpdates [vehA]),
            Ev.msgEvt 0 (Frame.vehicleUpdates [vehB])]).table.length) := by
  decide

/-- C9 amended: after every processed `vehicle_updates` frame the hook's
exposed `vehicleCount` equals the length of that frame's batch, and the
accumulated table (whose size is what the map page actually displays) is
updated by `handleVehicleUpdates`; the two quantities are not the same in
general. -/
theorem c9_vehicle_count_is_batch_length :
    ∀ (s : WSState) (h : Nat) (vs : List VehiclePosition),
      hlookup s.handles h = some ReadyState.OPEN →
      (step s (Ev.msgEvt h (Frame.vehicleUpdates vs))).vehicleCount = vs.length
      ∧ (step s (Ev.msgEvt h (Frame.vehicleUpdates vs))).table
          = handleVehicleUpdates s.table vs := by
  intro s h vs hop
  constructor
  · simp [step, hop, onmessage]
  · simp [step, hop, onmessage]

/-- C9 witness at a concrete open state and concrete batch. -/
theorem c9_witness :
    (step (run [Ev.connectCall, Ev.openEvt 0])
      (Ev.msgEvt 0 (Frame.vehicleUpdates [vehA]))).vehicleCount = [vehA].length :=
  (c9_vehicle_count_is_batch_length (run [Ev.connectCall, Ev.openEvt 0]) 0 [vehA]
    (by decide)).1

/-- C10 counterexample: a parsed `vehicle_updates` frame whose `vehicles`
field is the string "ab" (not an array) refutes the claim's conjunction:
no exception is thrown at all, `vehicleCount` is overwritten with the
string's length 2, and a junk entry under the `undefined` key is delivered
into the table — so for "not an array" values the handler neither throws
nor leaves `vehicleCount` and the table unchanged. -/
theorem c10_counterexample :
    (processVehicleUpdatesFrame vuInit (VField.vstr "ab")).2 = false
    ∧ (processVehicleUpdatesFrame vuInit (VField.vstr "ab")).1.vehicleCount = some 2
    ∧ (processVehicleUpdatesFrame vuInit (VField.vstr "ab")).1.table
        = [(none, TableVal.chr 'b')]
    ∧ ¬ ((processVehicleUpdatesFrame vuInit (VField.vstr "ab")).2 = true
        ∧ (processVehicleUpdatesFrame vuInit (VField.vstr "ab")).1.vehicleCount
            = vuInit.vehicleCount
        ∧ (processVehicleUpdatesFrame vuInit (VField.vstr "ab")).1.table = vuInit.table) := by
  decide

/-- C10 amended: for a `vehicle_updates` frame whose `vehicles` field is
absent or null, processing is non-atomic exactly as claimed: the TypeError
from reading `.length` is contained by the handler's try/catch (the
connection survives), `lastUpdate` has already been advanced before the
failure point, and `vehicleCount` and the vehicle table are unchanged with
no batch delivered to the reconciler. -/
theorem c10_nonatomic_frame_processing :
    ∀ (st : VUState) (f : VField), f = VField.absent ∨ f = VField.vnull →
      processVehicleUpdatesFrame st f
        = ({ st with lastUpdateCount := st.lastUpdateCount + 1 }, true) := by
  intro st f hf
  rcases hf with rfl | rfl <;> rfl

/-- C10 witness at the concrete initial state with an absent `vehicles`
field. -/
theorem c10_witness :
    processVehicleUpdatesFrame vuInit VField.absent
      = ({ vuInit with lastUpdateCount := vuInit.lastUpdateCount + 1 }, true) :=
  c10_nonatomic_frame_processing vuInit VField.absent (Or.inl rfl)
